import Mathlib

/-!
Shallow embedding of the git MCP server core
(`src/git/src/mcp_server_git/server.py`): the data-model classes, the
operation layer (one Lean function per `git_*` Python function), the tool
registry (`list_tools`), the repository resolver (`list_repos`) and the
dispatcher (`call_tool`).  The underlying version-control toolchain is an
external collaborator of the program; it is represented by an explicit
`Toolchain` record of functions, and the few facts the development needs
about it (e.g. that `git merge --abort` restores the pre-merge state) are
taken as hypotheses or modelled from the spec, as marked in doc comments.
-/

set_option autoImplicit false

/-- Python-style truthiness of an optional string: `None` and `""` are falsy. -/
def truthyOpt : Option String → Bool
  | none => false
  | some s => s != ""

/-- Whether `sub` is a prefix of `s` (on character lists). -/
def isPrefixL : List Char → List Char → Bool
  | [], _ => true
  | _ :: _, [] => false
  | a :: as, b :: bs => a == b && isPrefixL as bs

/-- Auxiliary for substring search: does `sub` occur in the list at any position. -/
def containsFrom (sub : List Char) : List Char → Bool
  | [] => isPrefixL sub []
  | b :: bs => isPrefixL sub (b :: bs) || containsFrom sub bs

/-- Python's `sub in s` substring test. -/
def strContainsSub (s sub : String) : Bool :=
  containsFrom sub.data s.data

/-- Python's `s.startswith(pre)` prefix test. -/
def pyStartsWith (s pre : String) : Bool :=
  isPrefixL pre.data s.data

/-- Python's `sep.join(parts)`. -/
def joinSep (sep : String) : List String → String
  | [] => ""
  | s :: rest => rest.foldl (fun acc x => acc ++ sep ++ x) s

/-- Python's `"".join(parts)`. -/
def strJoin : List String → String
  | [] => ""
  | s :: rest => s ++ strJoin rest

/-- First-match association-list lookup (Python attribute/index lookups
such as `repo.heads[name]`, `repo.remote(name)` and dict membership). -/
def alookup {α : Type} : List (String × α) → String → Option α
  | [], _ => none
  | (k, v) :: rest, key => if k == key then some v else alookup rest key

/-- A JSON-style argument value as carried in an invocation's argument mapping. -/
inductive ArgValue where
  | s (v : String)
  | i (v : Int)
  | b (v : Bool)
  | ls (v : List String)
  deriving DecidableEq, Repr

/-- The Python exceptions the server code can raise or propagate. -/
inductive GitErr where
  | valueError (message : String)
  | gitCommandError (message : String)
  | keyError (key : String)
  | typeError (message : String)
  | invalidGitRepository
  | sessionError (message : String)
  | osError (message : String)
  deriving DecidableEq, Repr

/-- A commit object as seen through GitPython: identifying metadata, the
parent commits, and the snapshot of file contents of its tree. -/
inductive CommitObj where
  | mk (hexsha author date message : String)
      (parents : List CommitObj) (tree : List (String × String))

def CommitObj.hexsha : CommitObj → String
  | .mk h _ _ _ _ _ => h

def CommitObj.author : CommitObj → String
  | .mk _ a _ _ _ _ => a

def CommitObj.date : CommitObj → String
  | .mk _ _ d _ _ _ => d

def CommitObj.message : CommitObj → String
  | .mk _ _ _ m _ _ => m

def CommitObj.parents : CommitObj → List CommitObj
  | .mk _ _ _ _ p _ => p

def CommitObj.tree : CommitObj → List (String × String)
  | .mk _ _ _ _ _ t => t

/-- The observable state of an on-disk repository: active branch, local
branches (`repo.heads`), all references (`repo.refs`), remotes, local
configuration, working tree contents, the commit log (`repo.iter_commits`,
newest first) and the object store (`repo.commit(rev)`). -/
structure RepoCore where
  activeBranch : String
  heads : List (String × String)
  refs : List (String × String)
  remotes : List (String × String)
  config : List (String × String)
  workingTree : List (String × String)
  commitLog : List CommitObj
  objects : List CommitObj

/-- Outcome of one toolchain (git) command: it either succeeds with some
output and a new repository state, or fails with a `GitCommandError`
message, leaving whatever state the command reached. -/
inductive CmdResult where
  | ok (output : String) (state : RepoCore)
  | fail (message : String) (state : RepoCore)

/-- The external version-control toolchain at the boundary the server calls
into (GitPython / git).  Its algorithms are out of scope of the program;
each field is one entry point the server invokes.  `push`, `pull` and
`fetch` take the optional `(GIT_USERNAME, GIT_PASSWORD)` pair which the
server injects via `custom_environment` for the duration of that call;
`merge_abort` models `git merge --abort`. -/
structure Toolchain where
  status : RepoCore → String
  diff : RepoCore → List String → String
  checkout : RepoCore → String → CmdResult
  merge_no_ff : RepoCore → String → CmdResult
  merge_abort : RepoCore → RepoCore
  pull : RepoCore → Option (String × String) → List String → CmdResult
  push : RepoCore → String → Option (String × String) → Option String → CmdResult
  fetch : RepoCore → String → Option (String × String) → CmdResult
  stash_cmd : RepoCore → List String → CmdResult
  branch_cmd : RepoCore → List String → CmdResult
  index_commit : RepoCore → String → String × RepoCore
  index_add : RepoCore → List String → RepoCore
  index_reset : RepoCore → RepoCore

/-- Global credential configuration read from the environment at process
start (`GIT_USERNAME`, `GIT_TOKEN`): `none` models an unset variable. -/
structure CredConfig where
  username : Option String
  token : Option String

/-- The formatted text of one commit, as produced by both `git_log` and the
header of `git_show` (the source repeats this exact f-string). -/
def commitText (o : CommitObj) : String :=
  "Commit: " ++ o.hexsha ++ "\nAuthor: " ++ o.author ++ "\nDate: " ++ o.date ++
    "\nMessage: " ++ o.message ++ "\n"

/-- `git_status`: `repo.git.status()` relayed verbatim (the bytes-decoding
branch of the source is the identity in this model, where toolchain output
is already text). -/
def git_status (tc : Toolchain) (repo : RepoCore) : String :=
  tc.status repo

/-- `git_diff_unstaged`: `repo.git.diff()`. -/
def git_diff_unstaged (tc : Toolchain) (repo : RepoCore) : String :=
  tc.diff repo []

/-- `git_diff_staged`: `repo.git.diff("--cached")`. -/
def git_diff_staged (tc : Toolchain) (repo : RepoCore) : String :=
  tc.diff repo ["--cached"]

/-- `git_diff`: `repo.git.diff(target)`. -/
def git_diff (tc : Toolchain) (repo : RepoCore) (target : String) : String :=
  tc.diff repo [target]

/-- `git_commit`: `repo.index.commit(message)` and the success string
embedding the resulting hash. -/
def git_commit (tc : Toolchain) (repo : RepoCore) (message : String) :
    String × RepoCore :=
  let r := tc.index_commit repo message
  ("Changes committed successfully with hash " ++ r.1, r.2)

/-- `git_add`: `repo.index.add(files)`. -/
def git_add (tc : Toolchain) (repo : RepoCore) (files : List String) :
    String × RepoCore :=
  ("Files staged successfully", tc.index_add repo files)

/-- `git_reset`: `repo.index.reset()`. -/
def git_reset (tc : Toolchain) (repo : RepoCore) : String × RepoCore :=
  ("All staged changes reset", tc.index_reset repo)

/-- `git_log`: formats up to `max_count` commits from `repo.iter_commits`.
Disclosed deviation: a negative count yields no entries in this model,
whereas git treats a negative `--max-count` as unlimited; no settled
theorem depends on that corner. -/
def git_log (repo : RepoCore) (max_count : Int) : List String :=
  (repo.commitLog.take max_count.toNat).map commitText

/-- `repo.create_head(branch_name, base)` (GitPython): creates the branch
reference at the base's commit without switching to it; when a reference of
that name already exists pointing at a different commit, GitPython raises
its "does already exist" `OSError`, which the caller does not catch; an
existing reference already at the requested commit is left unchanged. -/
def create_head (repo : RepoCore) (branch_name sha : String) :
    Except GitErr RepoCore :=
  match alookup repo.heads branch_name with
  | none => .ok { repo with heads := repo.heads ++ [(branch_name, sha)] }
  | some existing =>
    if existing == sha then .ok repo
    else
      .error (.osError ("Reference at '" ++ branch_name ++
        "' does already exist, pointing to '" ++ existing ++
        "', requested was '" ++ sha ++ "'"))

/-- `git_create_branch`: resolves the truthy `base_branch` in `repo.heads`
(raising `ValueError` when absent), else falls back to `repo.active_branch`;
`repo.create_head(branch_name, base)` then creates the branch at the base's
commit without switching to it, propagating its failure for an
already-existing name. -/
def git_create_branch (repo : RepoCore) (branch_name : String)
    (base_branch : Option String) : Except GitErr String × RepoCore :=
  if truthyOpt base_branch then
    let b := base_branch.getD ""
    match alookup repo.heads b with
    | none => (.error (.valueError ("Branch '" ++ b ++ "' not found")), repo)
    | some sha =>
      match create_head repo branch_name sha with
      | .ok repo2 => (.ok ("Created branch '" ++ branch_name ++ "' from '" ++ b ++ "'"), repo2)
      | .error e => (.error e, repo)
  else
    let sha := (alookup repo.heads repo.activeBranch).getD ""
    match create_head repo branch_name sha with
    | .ok repo2 =>
      (.ok ("Created branch '" ++ branch_name ++ "' from '" ++ repo.activeBranch ++ "'"), repo2)
    | .error e => (.error e, repo)

/-- `git_checkout`: `repo.git.checkout(branch_name)`; a toolchain failure
propagates as `GitCommandError` (the source does not catch it). -/
def git_checkout (tc : Toolchain) (repo : RepoCore) (branch_name : String) :
    Except GitErr String × RepoCore :=
  match tc.checkout repo branch_name with
  | .ok _ repo2 => (.ok ("Switched to branch '" ++ branch_name ++ "'"), repo2)
  | .fail m repo2 => (.error (.gitCommandError m), repo2)

/-- An entry of a GitPython `DiffIndex` with `create_patch=True`. -/
structure DiffEntry where
  a_path : String
  b_path : String
  diffText : String

/-- `git.NULL_TREE`: the empty tree. -/
def NULL_TREE : List (String × String) := []

/-- Modelled from the spec: the toolchain's patch text for one file pair
(diffing is out of scope of the program); an absent side contributes the
other side's full content, so a file diffed against the empty tree carries
its complete contents. -/
def renderPatch : Option String → Option String → String
  | none, some nw => "+" ++ nw
  | some od, none => "-" ++ od
  | some od, some nw => "-" ++ od ++ "+" ++ nw
  | none, none => ""

/-- Modelled from the spec: the toolchain's tree-to-tree diff with
`create_patch=True` (`a.diff(b, create_patch=True)`): one entry per path
whose content differs between the two trees. -/
def diffPatch (a b : List (String × String)) : List DiffEntry :=
  (((a ++ b).map Prod.fst).dedup).filterMap (fun p =>
    if alookup a p = alookup b p then none
    else some ⟨p, p, renderPatch (alookup a p) (alookup b p)⟩)

/-- The per-entry text `git_show` appends for each diff entry. -/
def renderDiffs (ds : List DiffEntry) : String :=
  strJoin (ds.map (fun d => "\n--- " ++ d.a_path ++ "\n+++ " ++ d.b_path ++ "\n" ++ d.diffText))

/-- Find a commit by hexsha in the object store. -/
def findCommit : List CommitObj → String → Option CommitObj
  | [], _ => none
  | o :: rest, sha => if o.hexsha == sha then some o else findCommit rest sha

/-- `repo.commit(revision)`: resolve a revision string to a commit, by
hexsha or by local branch name. -/
def resolveCommit (repo : RepoCore) (rev : String) : Option CommitObj :=
  match findCommit repo.objects rev with
  | some o => some o
  | none =>
    match alookup repo.heads rev with
    | some sha => findCommit repo.objects sha
    | none => none

/-- `git_show`: header for the resolved commit, then the patch of
`parents[0].diff(commit)` when a parent exists, else of
`commit.diff(NULL_TREE)` for a root commit. -/
def git_show (repo : RepoCore) (revision : String) : Except GitErr String :=
  match resolveCommit repo revision with
  | none => .error (.valueError ("Bad revision '" ++ revision ++ "'"))
  | some cm =>
    let ds := match cm.parents with
      | p :: _ => diffPatch p.tree cm.tree
      | [] => diffPatch cm.tree NULL_TREE
    .ok (commitText cm ++ renderDiffs ds)

/-- The credentials the server injects into the toolchain environment for
one remote call: present exactly when the remote URL starts with
`https://` and both `GIT_USERNAME` and `GIT_TOKEN` are truthy. -/
def credEnv (url : String) (cred : CredConfig) : Option (String × String) :=
  if pyStartsWith url "https://" && truthyOpt cred.username && truthyOpt cred.token then
    some (cred.username.getD "", cred.token.getD "")
  else none

/-- `git_push`: resolves the remote (`ValueError` when absent), pushes with
the per-call credential environment, and formats the success message. -/
def git_push (tc : Toolchain) (cred : CredConfig) (repo : RepoCore)
    (remote : String) (branch : Option String) : Except GitErr String × RepoCore :=
  match alookup repo.remotes remote with
  | none => (.error (.valueError ("Remote named '" ++ remote ++ "' didn't exist")), repo)
  | some url =>
    match tc.push repo remote (credEnv url cred) branch with
    | .ok _ repo2 =>
      match branch with
      | some b => (.ok ("Pushed changes to " ++ remote ++ "/" ++ b), repo2)
      | none => (.ok ("Pushed changes to " ++ remote), repo2)
    | .fail m repo2 => (.error (.gitCommandError m), repo2)

/-- Replace (or set) one key of the repository's local configuration
(`repo.config_writer().set_value`). -/
def setConfig (repo : RepoCore) (k v : String) : RepoCore :=
  { repo with config := (repo.config.filter (fun p => p.1 != k)) ++ [(k, v)] }

/-- The positional arguments of `repo.git.pull`: `(remote, branch)` when a
branch is given, none otherwise. -/
def pullArgs (remote : String) (branch : Option String) : List String :=
  match branch with
  | some b => [remote, b]
  | none => []

/-- `git_pull`: resolves the remote, persists the pull strategy into local
configuration (`pull.rebase`), pulls with the per-call credential
environment, and classifies a `GitCommandError` by message: the
"resolve your current index first" phrase becomes the dirty-working-tree
`ValueError`, the "automatic merge failed" phrase the merge-conflict
`ValueError`, and anything else is re-raised unchanged. -/
def git_pull (tc : Toolchain) (cred : CredConfig) (repo : RepoCore)
    (remote : String) (branch : Option String) (rebase : Bool) :
    Except GitErr String × RepoCore :=
  match alookup repo.remotes remote with
  | none => (.error (.valueError ("Remote named '" ++ remote ++ "' didn't exist")), repo)
  | some url =>
    let repo1 := setConfig repo "pull.rebase" (if rebase then "true" else "false")
    match tc.pull repo1 (credEnv url cred) (pullArgs remote branch) with
    | .ok _ repo2 =>
      let strategy := if rebase then "rebased" else "merged"
      match branch with
      | some b => (.ok ("Pulled and " ++ strategy ++ " changes from " ++ remote ++ "/" ++ b), repo2)
      | none => (.ok ("Pulled and " ++ strategy ++ " changes from " ++ remote), repo2)
    | .fail msg repo2 =>
      if strContainsSub msg "resolve your current index first" then
        (.error (.valueError "Cannot pull: You have unstaged changes. Please commit or stash them first."), repo2)
      else if strContainsSub msg "automatic merge failed" then
        (.error (.valueError "Pull failed: Merge conflicts detected. Please resolve conflicts manually."), repo2)
      else (.error (.gitCommandError msg), repo2)

/-- `git_fetch`: resolves the remote and fetches with the per-call
credential environment. -/
def git_fetch (tc : Toolchain) (cred : CredConfig) (repo : RepoCore)
    (remote : String) : Except GitErr String × RepoCore :=
  match alookup repo.remotes remote with
  | none => (.error (.valueError ("Remote named '" ++ remote ++ "' didn't exist")), repo)
  | some url =>
    match tc.fetch repo remote (credEnv url cred) with
    | .ok _ repo2 => (.ok ("Fetched changes from " ++ remote), repo2)
    | .fail m repo2 => (.error (.gitCommandError m), repo2)

/-- `git_merge`: resolves the target first among local heads, then among
all refs (`ValueError` when neither matches); runs `git merge <ref>
--no-ff`; on a `GitCommandError` whose message contains
"automatic merge failed" it runs `git merge --abort` and raises the
merge-conflict `ValueError`, otherwise it re-raises the error unchanged. -/
def git_merge (tc : Toolchain) (repo : RepoCore) (branch : String) :
    Except GitErr String × RepoCore :=
  let current := repo.activeBranch
  if (alookup repo.heads branch).isSome || (alookup repo.refs branch).isSome then
    match tc.merge_no_ff repo branch with
    | .ok _ repo2 => (.ok ("Merged " ++ branch ++ " into " ++ current), repo2)
    | .fail msg repo2 =>
      if strContainsSub msg "automatic merge failed" then
        (.error (.valueError "Merge failed due to conflicts. Merge aborted."), tc.merge_abort repo2)
      else (.error (.gitCommandError msg), repo2)
  else (.error (.valueError ("Branch '" ++ branch ++ "' not found")), repo)

/-- `git_stash`: `git stash save <message>` for a truthy message, bare
`git stash` otherwise. -/
def git_stash (tc : Toolchain) (repo : RepoCore) (message : Option String) :
    Except GitErr String × RepoCore :=
  if truthyOpt message then
    let m := message.getD ""
    match tc.stash_cmd repo ["save", m] with
    | .ok _ repo2 => (.ok ("Stashed changes with message: " ++ m), repo2)
    | .fail e repo2 => (.error (.gitCommandError e), repo2)
  else
    match tc.stash_cmd repo [] with
    | .ok _ repo2 => (.ok "Stashed changes", repo2)
    | .fail e repo2 => (.error (.gitCommandError e), repo2)

/-- `git_stash_pop`: `git stash pop stash@{index}`. -/
def git_stash_pop (tc : Toolchain) (repo : RepoCore) (index : Int) :
    Except GitErr String × RepoCore :=
  match tc.stash_cmd repo ["pop", "stash@\x7b" ++ toString index ++ "\x7d"] with
  | .ok _ repo2 => (.ok ("Popped stash at index " ++ toString index), repo2)
  | .fail e repo2 => (.error (.gitCommandError e), repo2)

/-- `git_get_current_branch`: `str(repo.active_branch)`. -/
def git_get_current_branch (repo : RepoCore) : String :=
  repo.activeBranch

/-- `git_list_branches`: the names of `repo.heads`. -/
def git_list_branches (repo : RepoCore) : List String :=
  repo.heads.map Prod.fst

/-- `git_delete_branch`: `git branch -D|-d <name>`. -/
def git_delete_branch (tc : Toolchain) (repo : RepoCore) (branch_name : String)
    (force : Bool) : Except GitErr String × RepoCore :=
  match tc.branch_cmd repo [if force then "-D" else "-d", branch_name] with
  | .ok _ repo2 => (.ok ("Deleted branch " ++ branch_name), repo2)
  | .fail e repo2 => (.error (.gitCommandError e), repo2)

/-- `git_list_remotes`: `name (url)` per remote. -/
def git_list_remotes (repo : RepoCore) : List String :=
  repo.remotes.map (fun r => r.1 ++ " (" ++ r.2 ++ ")")

/-- `git_add_remote`: `repo.create_remote(name, url)`, which fails when the
name already exists. -/
def git_add_remote (repo : RepoCore) (name url : String) :
    Except GitErr String × RepoCore :=
  match alookup repo.remotes name with
  | some _ => (.error (.gitCommandError ("error: remote " ++ name ++ " already exists.")), repo)
  | none =>
    (.ok ("Added remote " ++ name ++ " with URL " ++ url),
     { repo with remotes := repo.remotes ++ [(name, url)] })

/-- `git_remove_remote`: resolves the remote (the `ValueError` /
`StopIteration` of a missing name becomes the not-found `ValueError`) and
deletes it. -/
def git_remove_remote (repo : RepoCore) (name : String) :
    Except GitErr String × RepoCore :=
  if (alookup repo.remotes name).isSome then
    (.ok ("Removed remote " ++ name),
     { repo with remotes := repo.remotes.filter (fun p => p.1 != name) })
  else (.error (.valueError ("Remote '" ++ name ++ "' not found")), repo)

/-- The declared type of one schema parameter. -/
inductive FieldType where
  | str
  | int
  | bool
  | strList
  deriving DecidableEq, Repr

/-- One named parameter of a tool's argument schema, with its type, its
required flag, and its declared default value (when optional). -/
structure SchemaField where
  name : String
  ftype : FieldType
  required : Bool
  dflt : Option ArgValue
  deriving DecidableEq, Repr

/-- Schema of the `GitStatus` request model. -/
def GitStatus : List SchemaField :=
  [⟨"repo_path", .str, true, none⟩]

/-- Schema of the `GitDiffUnstaged` request model. -/
def GitDiffUnstaged : List SchemaField :=
  [⟨"repo_path", .str, true, none⟩]

/-- Schema of the `GitDiffStaged` request model. -/
def GitDiffStaged : List SchemaField :=
  [⟨"repo_path", .str, true, none⟩]

/-- Schema of the `GitDiff` request model. -/
def GitDiff : List SchemaField :=
  [⟨"repo_path", .str, true, none⟩, ⟨"target", .str, true, none⟩]

/-- Schema of the `GitCommit` request model. -/
def GitCommit : List SchemaField :=
  [⟨"repo_path", .str, true, none⟩, ⟨"message", .str, true, none⟩]

/-- Schema of the `GitAdd` request model. -/
def GitAdd : List SchemaField :=
  [⟨"repo_path", .str, true, none⟩, ⟨"files", .strList, true, none⟩]

/-- Schema of the `GitReset` request model. -/
def GitReset : List SchemaField :=
  [⟨"repo_path", .str, true, none⟩]

/-- Schema of the `GitLog` request model (`max_count: int = 10`). -/
def GitLog : List SchemaField :=
  [⟨"repo_path", .str, true, none⟩, ⟨"max_count", .int, false, some (.i 10)⟩]

/-- Schema of the `GitCreateBranch` request model. -/
def GitCreateBranch : List SchemaField :=
  [⟨"repo_path", .str, true, none⟩, ⟨"branch_name", .str, true, none⟩,
   ⟨"base_branch", .str, false, none⟩]

/-- Schema of the `GitCheckout` request model. -/
def GitCheckout : List SchemaField :=
  [⟨"repo_path", .str, true, none⟩, ⟨"branch_name", .str, true, none⟩]

/-- Schema of the `GitShow` request model. -/
def GitShow : List SchemaField :=
  [⟨"repo_path", .str, true, none⟩, ⟨"revision", .str, true, none⟩]

/-- Schema of the `GitPush` request model. -/
def GitPush : List SchemaField :=
  [⟨"repo_path", .str, true, none⟩, ⟨"remote", .str, false, some (.s "origin")⟩,
   ⟨"branch", .str, false, none⟩]

/-- Schema of the `GitPull` request model. -/
def GitPull : List SchemaField :=
  [⟨"repo_path", .str, true, none⟩, ⟨"remote", .str, false, some (.s "origin")⟩,
   ⟨"branch", .str, false, none⟩, ⟨"rebase", .bool, false, some (.b false)⟩]

/-- Schema of the `GitFetch` request model. -/
def GitFetch : List SchemaField :=
  [⟨"repo_path", .str, true, none⟩, ⟨"remote", .str, false, some (.s "origin")⟩]

/-- Schema of the `GitMerge` request model. -/
def GitMerge : List SchemaField :=
  [⟨"repo_path", .str, true, none⟩, ⟨"branch", .str, true, none⟩]

/-- Schema of the `GitStash` request model. -/
def GitStash : List SchemaField :=
  [⟨"repo_path", .str, true, none⟩, ⟨"message", .str, false, none⟩]

/-- Schema of the `GitStashPop` request model (`index: int = 0`). -/
def GitStashPop : List SchemaField :=
  [⟨"repo_path", .str, true, none⟩, ⟨"index", .int, false, some (.i 0)⟩]

/-- Schema of the `GitGetCurrentBranch` request model. -/
def GitGetCurrentBranch : List SchemaField :=
  [⟨"repo_path", .str, true, none⟩]

/-- Schema of the `GitListBranches` request model. -/
def GitListBranches : List SchemaField :=
  [⟨"repo_path", .str, true, none⟩]

/-- Schema of the `GitDeleteBranch` request model. -/
def GitDeleteBranch : List SchemaField :=
  [⟨"repo_path", .str, true, none⟩, ⟨"branch_name", .str, true, none⟩,
   ⟨"force", .bool, false, some (.b false)⟩]

/-- Schema of the `GitListRemotes` request model. -/
def GitListRemotes : List SchemaField :=
  [⟨"repo_path", .str, true, none⟩]

/-- Schema of the `GitAddRemote` request model. -/
def GitAddRemote : List SchemaField :=
  [⟨"repo_path", .str, true, none⟩, ⟨"name", .str, true, none⟩,
   ⟨"url", .str, true, none⟩]

/-- Schema of the `GitRemoveRemote` request model. -/
def GitRemoveRemote : List SchemaField :=
  [⟨"repo_path", .str, true, none⟩, ⟨"name", .str, true, none⟩]

/-- The `GitTools` enumeration of supported operations. -/
inductive GitTools where
  | STATUS
  | DIFF_UNSTAGED
  | DIFF_STAGED
  | DIFF
  | COMMIT
  | ADD
  | RESET
  | LOG
  | CREATE_BRANCH
  | CHECKOUT
  | SHOW
  | PUSH
  | PULL
  | FETCH
  | MERGE
  | STASH
  | STASH_POP
  | GET_CURRENT_BRANCH
  | LIST_BRANCHES
  | DELETE_BRANCH
  | LIST_REMOTES
  | ADD_REMOTE
  | REMOVE_REMOTE
  deriving DecidableEq, Repr

/-- The wire identifier (enum string value) of each operation. -/
def GitTools.wireName : GitTools → String
  | .STATUS => "git_status"
  | .DIFF_UNSTAGED => "git_diff_unstaged"
  | .DIFF_STAGED => "git_diff_staged"
  | .DIFF => "git_diff"
  | .COMMIT => "git_commit"
  | .ADD => "git_add"
  | .RESET => "git_reset"
  | .LOG => "git_log"
  | .CREATE_BRANCH => "git_create_branch"
  | .CHECKOUT => "git_checkout"
  | .SHOW => "git_show"
  | .PUSH => "git_push"
  | .PULL => "git_pull"
  | .FETCH => "git_fetch"
  | .MERGE => "git_merge"
  | .STASH => "git_stash"
  | .STASH_POP => "git_stash_pop"
  | .GET_CURRENT_BRANCH => "git_get_current_branch"
  | .LIST_BRANCHES => "git_list_branches"
  | .DELETE_BRANCH => "git_delete_branch"
  | .LIST_REMOTES => "git_list_remotes"
  | .ADD_REMOTE => "git_add_remote"
  | .REMOVE_REMOTE => "git_remove_remote"

/-- All members of the `GitTools` enumeration, in declaration order. -/
def allGitTools : List GitTools :=
  [.STATUS, .DIFF_UNSTAGED, .DIFF_STAGED, .DIFF, .COMMIT, .ADD, .RESET, .LOG,
   .CREATE_BRANCH, .CHECKOUT, .SHOW, .PUSH, .PULL, .FETCH, .MERGE, .STASH,
   .STASH_POP, .GET_CURRENT_BRANCH, .LIST_BRANCHES, .DELETE_BRANCH,
   .LIST_REMOTES, .ADD_REMOTE, .REMOVE_REMOTE]

/-- The string-match dispatch of `call_tool`'s `match name:` statement:
an incoming identifier resolves to the enum member whose value it equals,
or to nothing (the `case _` branch). -/
def parseTool : String → Option GitTools
  | "git_status" => some .STATUS
  | "git_diff_unstaged" => some .DIFF_UNSTAGED
  | "git_diff_staged" => some .DIFF_STAGED
  | "git_diff" => some .DIFF
  | "git_commit" => some .COMMIT
  | "git_add" => some .ADD
  | "git_reset" => some .RESET
  | "git_log" => some .LOG
  | "git_create_branch" => some .CREATE_BRANCH
  | "git_checkout" => some .CHECKOUT
  | "git_show" => some .SHOW
  | "git_push" => some .PUSH
  | "git_pull" => some .PULL
  | "git_fetch" => some .FETCH
  | "git_merge" => some .MERGE
  | "git_stash" => some .STASH
  | "git_stash_pop" => some .STASH_POP
  | "git_get_current_branch" => some .GET_CURRENT_BRANCH
  | "git_list_branches" => some .LIST_BRANCHES
  | "git_delete_branch" => some .DELETE_BRANCH
  | "git_list_remotes" => some .LIST_REMOTES
  | "git_add_remote" => some .ADD_REMOTE
  | "git_remove_remote" => some .REMOVE_REMOTE
  | _ => none

/-- One tool descriptor of the registry: wire name, human description, and
input schema. -/
structure ToolDescriptor where
  name : String
  description : String
  inputSchema : List SchemaField
  deriving DecidableEq, Repr

/-- The registry's `list_tools()`: the fixed sequence of descriptors the
server returns, in source order, with the descriptions verbatim. -/
def list_tools : List ToolDescriptor :=
  [⟨GitTools.STATUS.wireName, "Shows the working tree status", GitStatus⟩,
   ⟨GitTools.DIFF_UNSTAGED.wireName,
    "Shows changes in the working directory that are not yet staged", GitDiffUnstaged⟩,
   ⟨GitTools.DIFF_STAGED.wireName, "Shows changes that are staged for commit", GitDiffStaged⟩,
   ⟨GitTools.DIFF.wireName, "Shows differences between branches or commits", GitDiff⟩,
   ⟨GitTools.COMMIT.wireName, "Records changes to the repository", GitCommit⟩,
   ⟨GitTools.ADD.wireName, "Adds file contents to the staging area", GitAdd⟩,
   ⟨GitTools.RESET.wireName, "Unstages all staged changes", GitReset⟩,
   ⟨GitTools.LOG.wireName, "Shows the commit logs", GitLog⟩,
   ⟨GitTools.CREATE_BRANCH.wireName,
    "Creates a new branch from an optional base branch", GitCreateBranch⟩,
   ⟨GitTools.CHECKOUT.wireName, "Switches branches", GitCheckout⟩,
   ⟨GitTools.SHOW.wireName, "Shows the contents of a commit", GitShow⟩,
   ⟨GitTools.PUSH.wireName, "Push changes to remote repository", GitPush⟩,
   ⟨GitTools.PULL.wireName, "Pull changes from remote repository", GitPull⟩,
   ⟨GitTools.FETCH.wireName, "Fetch changes from remote without merging", GitFetch⟩,
   ⟨GitTools.MERGE.wireName, "Merge a branch into current branch", GitMerge⟩,
   ⟨GitTools.STASH.wireName, "Stash current changes", GitStash⟩,
   ⟨GitTools.STASH_POP.wireName, "Pop stashed changes", GitStashPop⟩,
   ⟨GitTools.GET_CURRENT_BRANCH.wireName, "Get name of current branch", GitGetCurrentBranch⟩,
   ⟨GitTools.LIST_BRANCHES.wireName, "List all branches", GitListBranches⟩,
   ⟨GitTools.DELETE_BRANCH.wireName, "Delete a branch", GitDeleteBranch⟩,
   ⟨GitTools.LIST_REMOTES.wireName, "List remote repositories", GitListRemotes⟩,
   ⟨GitTools.ADD_REMOTE.wireName, "Add a new remote repository", GitAddRemote⟩,
   ⟨GitTools.REMOVE_REMOTE.wireName, "Remove a remote repository", GitRemoveRemote⟩]

/-- The (name, required, default) view of a schema field, for comparison
with what the dispatcher consumes. -/
def fieldSpec (f : SchemaField) : String × Bool × Option ArgValue :=
  (f.name, f.required, f.dflt)

/-- The argument set each operation's dispatch consumes, read off the
`call_tool` code: `arguments[k]` is a required field, `arguments.get(k)` /
`arguments.get(k, d)` an optional field with the given default.
`repo_path` is consumed for every operation before dispatch. -/
def consumedArgs : GitTools → List (String × Bool × Option ArgValue)
  | .STATUS => [("repo_path", true, none)]
  | .DIFF_UNSTAGED => [("repo_path", true, none)]
  | .DIFF_STAGED => [("repo_path", true, none)]
  | .DIFF => [("repo_path", true, none), ("target", true, none)]
  | .COMMIT => [("repo_path", true, none), ("message", true, none)]
  | .ADD => [("repo_path", true, none), ("files", true, none)]
  | .RESET => [("repo_path", true, none)]
  | .LOG => [("repo_path", true, none), ("max_count", false, some (.i 10))]
  | .CREATE_BRANCH =>
      [("repo_path", true, none), ("branch_name", true, none), ("base_branch", false, none)]
  | .CHECKOUT => [("repo_path", true, none), ("branch_name", true, none)]
  | .SHOW => [("repo_path", true, none), ("revision", true, none)]
  | .PUSH =>
      [("repo_path", true, none), ("remote", false, some (.s "origin")), ("branch", false, none)]
  | .PULL =>
      [("repo_path", true, none), ("remote", false, some (.s "origin")), ("branch", false, none),
       ("rebase", false, some (.b false))]
  | .FETCH => [("repo_path", true, none), ("remote", false, some (.s "origin"))]
  | .MERGE => [("repo_path", true, none), ("branch", true, none)]
  | .STASH => [("repo_path", true, none), ("message", false, none)]
  | .STASH_POP => [("repo_path", true, none), ("index", false, some (.i 0))]
  | .GET_CURRENT_BRANCH => [("repo_path", true, none)]
  | .LIST_BRANCHES => [("repo_path", true, none)]
  | .DELETE_BRANCH =>
      [("repo_path", true, none), ("branch_name", true, none), ("force", false, some (.b false))]
  | .LIST_REMOTES => [("repo_path", true, none)]
  | .ADD_REMOTE => [("repo_path", true, none), ("name", true, none), ("url", true, none)]
  | .REMOVE_REMOTE => [("repo_path", true, none), ("name", true, none)]

/-- The calling session as seen by the repository resolver: whether the
request context holds a `ServerSession`, whether the client advertises the
roots capability, and the outcome of the `list_roots()` query (whose
root paths are carried on success). -/
structure SessionModel where
  isServerSession : Bool
  supportsRoots : Bool
  rootsQuery : Except String (List String)

/-- `by_roots` of `list_repos`: requires a `ServerSession` (else
`TypeError`), returns no roots when the client lacks the capability, and
otherwise queries `list_roots()` — an exception from the query propagates —
keeping only the candidate paths that open as valid repositories
(`validRepos`), silently discarding the rest. -/
def by_roots (validRepos : List String) (s : SessionModel) :
    Except GitErr (List String) :=
  if !s.isServerSession then
    .error (.typeError "server.request_context.session must be a ServerSession")
  else if !s.supportsRoots then .ok []
  else
    match s.rootsQuery with
    | .error e => .error (.sessionError e)
    | .ok roots => .ok (roots.filter (fun p => validRepos.contains p))

/-- `list_repos`: the dynamically discovered roots followed by the
statically configured repository path (when one was given). -/
def list_repos (validRepos : List String) (s : SessionModel)
    (repository : Option String) : Except GitErr (List String) :=
  let cmd_repos := match repository with
    | some r => [r]
    | none => []
  match by_roots validRepos s with
  | .error e => .error e
  | .ok root_repos => .ok (root_repos ++ cmd_repos)

/-- One text segment of an invocation result (`TextContent`). -/
structure TextContent where
  type : String
  text : String
  deriving DecidableEq, Repr

/-- Process-level context of the dispatcher: the repositories that exist on
disk (keyed by path, as `git.Repo` opens them), the toolchain, and the
process-wide credential configuration. -/
structure World where
  repos : List (String × RepoCore)
  tc : Toolchain
  cred : CredConfig

/-- `arguments[key]` for a string-valued argument: `KeyError` when absent;
a non-string value models Python's downstream type failure for that
argument. -/
def reqString (args : List (String × ArgValue)) (key : String) :
    Except GitErr String :=
  match alookup args key with
  | none => .error (.keyError key)
  | some (.s v) => .ok v
  | some _ => .error (.typeError key)

/-- `arguments[key]` for a list-of-strings argument. -/
def reqStrList (args : List (String × ArgValue)) (key : String) :
    Except GitErr (List String) :=
  match alookup args key with
  | none => .error (.keyError key)
  | some (.ls v) => .ok v
  | some _ => .error (.typeError key)

/-- `arguments.get(key)` for an optional string argument. -/
def optString (args : List (String × ArgValue)) (key : String) :
    Except GitErr (Option String) :=
  match alookup args key with
  | none => .ok none
  | some (.s v) => .ok (some v)
  | some _ => .error (.typeError key)

/-- `arguments.get(key, d)` for an optional string argument with default. -/
def optStringD (args : List (String × ArgValue)) (key : String) (d : String) :
    Except GitErr String :=
  match alookup args key with
  | none => .ok d
  | some (.s v) => .ok v
  | some _ => .error (.typeError key)

/-- `arguments.get(key, d)` for an optional integer argument with default. -/
def optIntD (args : List (String × ArgValue)) (key : String) (d : Int) :
    Except GitErr Int :=
  match alookup args key with
  | none => .ok d
  | some (.i v) => .ok v
  | some _ => .error (.typeError key)

/-- `arguments.get(key, d)` for an optional boolean argument with default. -/
def optBoolD (args : List (String × ArgValue)) (key : String) (d : Bool) :
    Except GitErr Bool :=
  match alookup args key with
  | none => .ok d
  | some (.b v) => .ok v
  | some _ => .error (.typeError key)

/-- Turn an operation's `(result-or-error, state)` pair into the
dispatcher's result shape (an error discards the final state, which the
dispatcher does not report). -/
def liftPair : Except GitErr String × RepoCore → Except GitErr (String × RepoCore)
  | (.ok s, repo) => .ok (s, repo)
  | (.error e, _) => .error e

/-- The per-operation body of `call_tool`'s `match` statement: extracts the
operation's own arguments, invokes the matching operation-layer function,
and produces the exact response text of the corresponding `case` branch
(label prefix included where the source adds one). -/
def dispatchOp (w : World) (t : GitTools) (args : List (String × ArgValue))
    (repo : RepoCore) : Except GitErr (String × RepoCore) :=
  match t with
  | .STATUS => .ok ("Repository status:\n" ++ git_status w.tc repo, repo)
  | .DIFF_UNSTAGED => .ok ("Unstaged changes:\n" ++ git_diff_unstaged w.tc repo, repo)
  | .DIFF_STAGED => .ok ("Staged changes:\n" ++ git_diff_staged w.tc repo, repo)
  | .DIFF =>
    match reqString args "target" with
    | .error e => .error e
    | .ok target => .ok ("Diff with " ++ target ++ ":\n" ++ git_diff w.tc repo target, repo)
  | .COMMIT =>
    match reqString args "message" with
    | .error e => .error e
    | .ok message => .ok (git_commit w.tc repo message)
  | .ADD =>
    match reqStrList args "files" with
    | .error e => .error e
    | .ok files => .ok (git_add w.tc repo files)
  | .RESET => .ok (git_reset w.tc repo)
  | .LOG =>
    match optIntD args "max_count" 10 with
    | .error e => .error e
    | .ok n => .ok ("Commit history:\n" ++ joinSep "\n" (git_log repo n), repo)
  | .CREATE_BRANCH =>
    match reqString args "branch_name" with
    | .error e => .error e
    | .ok branch_name =>
      match optString args "base_branch" with
      | .error e => .error e
      | .ok base_branch => liftPair (git_create_branch repo branch_name base_branch)
  | .CHECKOUT =>
    match reqString args "branch_name" with
    | .error e => .error e
    | .ok branch_name => liftPair (git_checkout w.tc repo branch_name)
  | .SHOW =>
    match reqString args "revision" with
    | .error e => .error e
    | .ok revision =>
      match git_show repo revision with
      | .ok s => .ok (s, repo)
      | .error e => .error e
  | .PUSH =>
    match optStringD args "remote" "origin" with
    | .error e => .error e
    | .ok remote =>
      match optString args "branch" with
      | .error e => .error e
      | .ok branch => liftPair (git_push w.tc w.cred repo remote branch)
  | .PULL =>
    match optStringD args "remote" "origin" with
    | .error e => .error e
    | .ok remote =>
      match optString args "branch" with
      | .error e => .error e
      | .ok branch =>
        match optBoolD args "rebase" false with
        | .error e => .error e
        | .ok rebase => liftPair (git_pull w.tc w.cred repo remote branch rebase)
  | .FETCH =>
    match optStringD args "remote" "origin" with
    | .error e => .error e
    | .ok remote => liftPair (git_fetch w.tc w.cred repo remote)
  | .MERGE =>
    match reqString args "branch" with
    | .error e => .error e
    | .ok branch => liftPair (git_merge w.tc repo branch)
  | .STASH =>
    match optString args "message" with
    | .error e => .error e
    | .ok message => liftPair (git_stash w.tc repo message)
  | .STASH_POP =>
    match optIntD args "index" 0 with
    | .error e => .error e
    | .ok index => liftPair (git_stash_pop w.tc repo index)
  | .GET_CURRENT_BRANCH => .ok (git_get_current_branch repo, repo)
  | .LIST_BRANCHES => .ok ("Branches:\n" ++ joinSep "\n" (git_list_branches repo), repo)
  | .DELETE_BRANCH =>
    match reqString args "branch_name" with
    | .error e => .error e
    | .ok branch_name =>
      match optBoolD args "force" false with
      | .error e => .error e
      | .ok force => liftPair (git_delete_branch w.tc repo branch_name force)
  | .LIST_REMOTES => .ok ("Remotes:\n" ++ joinSep "\n" (git_list_remotes repo), repo)
  | .ADD_REMOTE =>
    match reqString args "name" with
    | .error e => .error e
    | .ok name =>
      match reqString args "url" with
      | .error e => .error e
      | .ok url => liftPair (git_add_remote repo name url)
  | .REMOVE_REMOTE =>
    match reqString args "name" with
    | .error e => .error e
    | .ok name => liftPair (git_remove_remote repo name)

/-- The dispatcher `call_tool(name, arguments)`: first extracts
`arguments["repo_path"]` (`KeyError` when absent) and opens the repository
at that path (`InvalidGitRepositoryError` when the path is not one), then
matches the tool identifier, runs the matched operation and wraps its text
in a single `TextContent`; an identifier matching no case raises
`ValueError("Unknown tool: ...")`. -/
def call_tool (w : World) (name : String) (args : List (String × ArgValue)) :
    Except GitErr (List TextContent × RepoCore) :=
  match alookup args "repo_path" with
  | none => .error (.keyError "repo_path")
  | some (.s repo_path) =>
    match alookup w.repos repo_path with
    | none => .error .invalidGitRepository
    | some repo =>
      match parseTool name with
      | some t =>
        match dispatchOp w t args repo with
        | .ok (txt, repo2) => .ok ([TextContent.mk "text" txt], repo2)
        | .error e => .error e
      | none => .error (.valueError ("Unknown tool: " ++ name))
  | some _ => .error (.typeError "repo_path")

/-- Tree of the demonstration root commit. -/
def tree1 : List (String × String) := [("a.txt", "hello world\n")]

/-- Tree of the demonstration second commit. -/
def tree2 : List (String × String) :=
  [("a.txt", "hello world\nsecond line\n"), ("b.txt", "new file\n")]

/-- A demonstration root commit (no parents). -/
def rootCommit : CommitObj := .mk "c0sha" "Alice" "2024-01-01" "init" [] tree1

/-- A demonstration child commit of `rootCommit`. -/
def childCommit : CommitObj := .mk "c1sha" "Alice" "2024-01-02" "second" [rootCommit] tree2

/-- A demonstration repository state. -/
def repoDemo : RepoCore :=
  { activeBranch := "main"
    heads := [("main", "c1sha")]
    refs := [("main", "c1sha"), ("origin/feature", "c2sha")]
    remotes := [("origin", "https://example.com/r.git"),
                ("upstream", "ssh://git@example.com/r.git")]
    config := []
    workingTree := tree2
    commitLog := [childCommit, rootCommit]
    objects := [childCommit, rootCommit] }

/-- A demonstration toolchain with benign behaviors; its `push` records in
the resulting configuration whether a credential environment was supplied,
so that credential injection is observable. -/
def tcDemo : Toolchain :=
  { status := fun _ => "clean"
    diff := fun _ _ => "demo-diff"
    checkout := fun repo _ => .ok "" repo
    merge_no_ff := fun repo _ => .ok "" repo
    merge_abort := fun repo => repo
    pull := fun repo _ _ => .ok "" repo
    push := fun repo _ creds _ =>
      .ok "" { repo with
               config := [("probe", if creds.isSome then "with-creds" else "no-creds")] }
    fetch := fun repo _ _ => .ok "" repo
    stash_cmd := fun repo _ => .ok "" repo
    branch_cmd := fun repo _ => .ok "" repo
    index_commit := fun repo _ => ("abc123", repo)
    index_add := fun repo _ => repo
    index_reset := fun repo => repo }

/-- The demonstration process state: one repository at `/repo`, no
credentials configured. -/
def wDemo : World := ⟨[("/repo", repoDemo)], tcDemo, ⟨none, none⟩⟩

/-- C2 counterexample: the registry returns 23 descriptors, not the 22 the
claim states (the catalog sentence of the spec lists 23 identifiers). -/
theorem list_tools_count_counterexample :
    list_tools.length = 23 ∧ list_tools.length ≠ 22 := by
  decide

/-- C2 (amended): `list_tools()` is a fixed sequence of exactly one
descriptor per supported operation, covering exactly the 23 supported
operations in enumeration order, and each descriptor's schema field set
(names, required flags and defaults) equals the argument set its dispatch
consumes. -/
theorem list_tools_catalog_amended :
    list_tools.length = 23 ∧
    (list_tools.map ToolDescriptor.name).Nodup ∧
    list_tools.map (fun d => (d.name, d.inputSchema.map fieldSpec)) =
      allGitTools.map (fun t => (t.wireName, consumedArgs t)) := by
  decide

/-- C1: when the toolchain's non-fast-forward merge fails with a conflict —
surfaced as a `GitCommandError` whose message carries the
"automatic merge failed" phrase — and `git merge --abort` restores the
pre-merge state (the toolchain's contract for an in-progress merge),
`git_merge` aborts the in-progress merge before surfacing the
merge-conflict error, leaving the repository (active branch and working
tree included) identical to its pre-merge state. -/
theorem git_merge_conflict_restores_state (tc : Toolchain) (repo dirty : RepoCore)
    (branch msg : String)
    (hres : ((alookup repo.heads branch).isSome || (alookup repo.refs branch).isSome) = true)
    (hmerge : tc.merge_no_ff repo branch = .fail msg dirty)
    (hconf : strContainsSub msg "automatic merge failed" = true)
    (habort : tc.merge_abort dirty = repo) :
    git_merge tc repo branch =
      (.error (.valueError "Merge failed due to conflicts. Merge aborted."), repo) := by
  simp [git_merge, hres, hmerge, hconf, habort]

/-- The half-merged state a conflicting demonstration merge leaves behind. -/
def dirtyDemo : RepoCore := { repoDemo with workingTree := [("a.txt", "conflict markers")] }

/-- A demonstration toolchain whose merge conflicts and whose abort
restores the demonstration pre-merge state. -/
def tcConflict : Toolchain :=
  { tcDemo with
    merge_no_ff := fun _ _ =>
      .fail "automatic merge failed; fix conflicts and then commit the result" dirtyDemo
    merge_abort := fun _ => repoDemo }

/-- Witness for C1 at a concrete conflicting merge. -/
theorem git_merge_conflict_restores_state_witness :
    git_merge tcConflict repoDemo "main" =
      (.error (.valueError "Merge failed due to conflicts. Merge aborted."), repoDemo) :=
  git_merge_conflict_restores_state tcConflict repoDemo dirtyDemo "main"
    "automatic merge failed; fix conflicts and then commit the result"
    (by decide) rfl rfl rfl

/-- C3: when the toolchain pull fails, `git_pull` classifies the failure by
its message: the "resolve your current index first" phrase (the toolchain's
signal that local modifications block the pull) becomes the
dirty-working-tree error, else the "automatic merge failed" phrase (a
failed automatic merge) becomes the merge-conflict error, and any other
failure is re-raised unclassified with its original message. -/
theorem git_pull_error_classification (tc : Toolchain) (cred : CredConfig)
    (repo repo2 : RepoCore) (remote url : String) (branch : Option String)
    (rebase : Bool) (msg : String)
    (hre : alookup repo.remotes remote = some url)
    (hfail : tc.pull (setConfig repo "pull.rebase" (if rebase then "true" else "false"))
        (credEnv url cred) (pullArgs remote branch) = .fail msg repo2) :
    (strContainsSub msg "resolve your current index first" = true →
       git_pull tc cred repo remote branch rebase =
         (.error (.valueError "Cannot pull: You have unstaged changes. Please commit or stash them first."),
          repo2)) ∧
    (strContainsSub msg "resolve your current index first" = false →
     strContainsSub msg "automatic merge failed" = true →
       git_pull tc cred repo remote branch rebase =
         (.error (.valueError "Pull failed: Merge conflicts detected. Please resolve conflicts manually."),
          repo2)) ∧
    (strContainsSub msg "resolve your current index first" = false →
     strContainsSub msg "automatic merge failed" = false →
       git_pull tc cred repo remote branch rebase =
         (.error (.gitCommandError msg), repo2)) := by
  refine ⟨fun h1 => ?_, fun h1 h2 => ?_, fun h1 h2 => ?_⟩
  · simp [git_pull, hre, hfail, h1]
  · simp [git_pull, hre, hfail, h1, h2]
  · simp [git_pull, hre, hfail, h1, h2]

/-- A demonstration toolchain whose pull is blocked by local
modifications. -/
def tcPullDirty : Toolchain :=
  { tcDemo with
    pull := fun _ _ _ =>
      .fail "error: you need to resolve your current index first" dirtyDemo }

/-- Witness for C3 at a concrete blocked pull. -/
theorem git_pull_error_classification_witness :
    git_pull tcPullDirty ⟨none, none⟩ repoDemo "origin" none false =
      (.error (.valueError "Cannot pull: You have unstaged changes. Please commit or stash them first."),
       dirtyDemo) :=
  (git_pull_error_classification tcPullDirty ⟨none, none⟩ repoDemo dirtyDemo "origin"
    "https://example.com/r.git" none false
    "error: you need to resolve your current index first" rfl rfl).1 rfl

/-- C4 counterexample: an invocation of an unknown identifier with an
argument mapping lacking `repo_path` fails with the `repo_path` `KeyError`,
not with the unknown-tool error — the dispatcher extracts `repo_path` and
opens the repository before looking up the identifier. -/
theorem call_tool_unknown_counterexample :
    call_tool wDemo "definitely_not_a_tool" [] = .error (.keyError "repo_path") ∧
    GitErr.keyError "repo_path" ≠
      GitErr.valueError "Unknown tool: definitely_not_a_tool" :=
  ⟨rfl, by decide⟩

/-- C4 (amended): an invocation whose identifier is not in the catalog
fails with the unknown-tool error provided its arguments carry a
`repo_path` string resolving to a valid repository; the `repo_path`
extraction and repository opening happen before the identifier lookup, so
their errors surface first otherwise. -/
theorem call_tool_unknown_amended (w : World) (name : String)
    (args : List (String × ArgValue)) (path : String) (repo : RepoCore)
    (hpath : alookup args "repo_path" = some (.s path))
    (hrepo : alookup w.repos path = some repo)
    (hunknown : parseTool name = none) :
    call_tool w name args = .error (.valueError ("Unknown tool: " ++ name)) := by
  simp [call_tool, hpath, hrepo, hunknown]

/-- Witness for the amended C4 at a concrete unknown identifier. -/
theorem call_tool_unknown_amended_witness :
    call_tool wDemo "definitely_not_a_tool" [("repo_path", .s "/repo")] =
      .error (.valueError "Unknown tool: definitely_not_a_tool") :=
  call_tool_unknown_amended wDemo "definitely_not_a_tool"
    [("repo_path", .s "/repo")] "/repo" repoDemo rfl rfl rfl

/-- C5 counterexample: when the roots capability query itself fails, the
error propagates out of `list_repos` instead of falling back to the static
path — at this concrete input the result is the propagated error, not the
static-path-only list the claim requires. -/
theorem list_repos_query_failure_counterexample :
    list_repos ["/repo"] ⟨true, true, .error "connection lost"⟩ (some "/repo") =
      .error (.sessionError "connection lost") ∧
    list_repos ["/repo"] ⟨true, true, .error "connection lost"⟩ (some "/repo") ≠
      .ok ["/repo"] :=
  ⟨rfl, fun h => Except.noConfusion h⟩

/-- C5 (amended): `list_repos` returns the dynamically discovered roots
(filtered to valid repositories, invalid candidates silently discarded)
first and the statically configured path last; when the session lacks the
roots capability it returns only the static path (or empty); but when the
capability query itself fails, the query's error propagates out of the
discovery call rather than being tolerated. -/
theorem list_repos_amended (validRepos : List String) (s : SessionModel)
    (repository : Option String) (hs : s.isServerSession = true) :
    (s.supportsRoots = false →
       list_repos validRepos s repository =
         .ok (match repository with | some r => [r] | none => [])) ∧
    (∀ e, s.supportsRoots = true → s.rootsQuery = .error e →
       list_repos validRepos s repository = .error (.sessionError e)) ∧
    (∀ roots, s.supportsRoots = true → s.rootsQuery = .ok roots →
       list_repos validRepos s repository =
         .ok (roots.filter (fun p => validRepos.contains p) ++
              (match repository with | some r => [r] | none => []))) := by
  refine ⟨fun h => ?_, fun e h1 h2 => ?_, fun roots h1 h2 => ?_⟩ <;>
    simp [list_repos, by_roots, hs, *]

/-- Witness for the amended C5: a supported, successful query filters out
the invalid candidate and appends the static path last. -/
theorem list_repos_amended_witness :
    list_repos ["/repo"] ⟨true, true, .ok ["/repo", "/not-a-repo"]⟩ (some "/static") =
      .ok ["/repo", "/static"] :=
  (list_repos_amended ["/repo"] ⟨true, true, .ok ["/repo", "/not-a-repo"]⟩
    (some "/static") rfl).2.2 ["/repo", "/not-a-repo"] rfl rfl

/-- C6 counterexample: an empty-string `base_branch` is given and exists
among no local branches, yet `git_create_branch` does not fail — Python
truthiness treats `""` like an absent base, so the branch is created from
the currently checked-out branch. -/
theorem create_branch_empty_base_counterexample :
    alookup repoDemo.heads "" = none ∧
    git_create_branch repoDemo "new" (some "") =
      (.ok "Created branch 'new' from 'main'",
       { repoDemo with heads := [("main", "c1sha"), ("new", "c1sha")] }) :=
  ⟨rfl, rfl⟩

/-- C6 (amended): for a given non-empty `base_branch` absent from the local
branches, `git_create_branch` fails with the branch-not-found error and
creates no branch; for a given non-empty existing base and a fresh new
name it creates the new branch pointing at that base; with `base_branch`
absent and a fresh new name the base defaults to the currently checked-out
branch; in every successful case the new branch points at the base's
commit and the checked-out branch is unchanged.  An empty-string
`base_branch` is treated as absent, and a `branch_name` already existing
at a different commit propagates GitPython's "does already exist" error
with no branch created. -/
theorem git_create_branch_amended (repo : RepoCore) (branch_name : String) :
    (∀ b, b ≠ "" → alookup repo.heads b = none →
       git_create_branch repo branch_name (some b) =
         (.error (.valueError ("Branch '" ++ b ++ "' not found")), repo)) ∧
    (∀ b sha, b ≠ "" → alookup repo.heads b = some sha →
     alookup repo.heads branch_name = none →
       git_create_branch repo branch_name (some b) =
         (.ok ("Created branch '" ++ branch_name ++ "' from '" ++ b ++ "'"),
          { repo with heads := repo.heads ++ [(branch_name, sha)] })) ∧
    (alookup repo.heads branch_name = none →
       git_create_branch repo branch_name none =
         (.ok ("Created branch '" ++ branch_name ++ "' from '" ++ repo.activeBranch ++ "'"),
          { repo with
            heads := repo.heads ++
              [(branch_name, (alookup repo.heads repo.activeBranch).getD "")] })) ∧
    (∀ b sha existing, b ≠ "" → alookup repo.heads b = some sha →
     alookup repo.heads branch_name = some existing → existing ≠ sha →
       git_create_branch repo branch_name (some b) =
         (.error (.osError ("Reference at '" ++ branch_name ++
            "' does already exist, pointing to '" ++ existing ++
            "', requested was '" ++ sha ++ "'")), repo)) := by
  refine ⟨fun b hb hnone => ?_, fun b sha hb hsha hfresh => ?_, fun hfresh => ?_,
          fun b sha existing hb hsha hdup hne => ?_⟩
  · simp [git_create_branch, truthyOpt, hb, hnone]
  · simp [git_create_branch, create_head, truthyOpt, hb, hsha, hfresh]
  · simp [git_create_branch, create_head, truthyOpt, hfresh]
  · simp [git_create_branch, create_head, truthyOpt, hb, hsha, hdup,
          beq_false_of_ne hne]

/-- Witness for the amended C6 at a concrete nonexistent base branch. -/
theorem git_create_branch_amended_witness :
    git_create_branch repoDemo "new" (some "feat") =
      (.error (.valueError "Branch 'feat' not found"), repoDemo) :=
  (git_create_branch_amended repoDemo "new").1 "feat" (by decide) rfl

/-- A successful association-list lookup means the key occurs among the
keys. -/
theorem alookup_mem_keys {α : Type} {l : List (String × α)} {key : String} {v : α}
    (h : alookup l key = some v) : key ∈ l.map Prod.fst := by
  induction l with
  | nil => exact absurd h (by simp [alookup])
  | cons p rest ih =>
    obtain ⟨k, w⟩ := p
    by_cases hk : k = key
    · subst hk; simp
    · have hk' : (k == key) = false := beq_false_of_ne hk
      simp only [alookup, hk', Bool.false_eq_true, if_false] at h
      simp [ih h]

/-- Any element of a list contributes its rendering as one contiguous
segment of the joined string. -/
theorem strJoin_mem_decomp {α : Type} (f : α → String) {d : α} {ds : List α}
    (h : d ∈ ds) : ∃ pre post, strJoin (ds.map f) = pre ++ f d ++ post := by
  induction ds with
  | nil => cases h
  | cons a l ih =>
    rcases List.mem_cons.mp h with rfl | hmem
    · exact ⟨"", strJoin (l.map f), by simp [strJoin, String.empty_append]⟩
    · obtain ⟨pre, post, hp⟩ := ih hmem
      exact ⟨f a ++ pre, post, by simp [strJoin, hp, String.append_assoc]⟩

/-- Each file looked up in the tree diffed against the empty tree yields a
diff entry carrying its full content. -/
theorem mem_diffPatch_nullTree {a : List (String × String)} {pth cont : String}
    (h : alookup a pth = some cont) :
    (⟨pth, pth, "-" ++ cont⟩ : DiffEntry) ∈ diffPatch a NULL_TREE := by
  unfold diffPatch NULL_TREE
  apply List.mem_filterMap.mpr
  refine ⟨pth, ?_, ?_⟩
  · apply List.mem_dedup.mpr
    simpa using alookup_mem_keys h
  · simp [h, alookup, renderPatch]

/-- C7: `git_show` on a revision resolving to a commit with at least one
parent returns the header followed by the patch of the commit against its
first parent; on a root commit (no parents) it returns the header followed
by the patch against the empty tree, which carries the full content of
every file of the commit's tree rather than an empty diff or a failure. -/
theorem git_show_diff_asymmetry (repo : RepoCore) (rev : String) (cm : CommitObj)
    (hres : resolveCommit repo rev = some cm) :
    (∀ p rest, cm.parents = p :: rest →
       git_show repo rev = .ok (commitText cm ++ renderDiffs (diffPatch p.tree cm.tree))) ∧
    (cm.parents = [] →
       git_show repo rev = .ok (commitText cm ++ renderDiffs (diffPatch cm.tree NULL_TREE)) ∧
       ∀ pth cont, alookup cm.tree pth = some cont →
         ∃ pre post,
           commitText cm ++ renderDiffs (diffPatch cm.tree NULL_TREE) =
             pre ++ cont ++ post) := by
  constructor
  · intro p rest hp
    simp [git_show, hres, hp]
  · intro hp
    refine ⟨by simp [git_show, hres, hp], fun pth cont hl => ?_⟩
    obtain ⟨pre, post, hj⟩ :=
      strJoin_mem_decomp
        (fun d : DiffEntry => "\n--- " ++ d.a_path ++ "\n+++ " ++ d.b_path ++ "\n" ++ d.diffText)
        (mem_diffPatch_nullTree hl)
    refine ⟨commitText cm ++ pre ++ ("\n--- " ++ pth ++ "\n+++ " ++ pth ++ "\n" ++ "-"),
            post, ?_⟩
    simp only [renderDiffs, hj]
    simp only [String.append_assoc]

/-- Witness for C7 at the concrete demonstration root commit: the shown
text is the empty-tree diff and contains the full content of `a.txt`. -/
theorem git_show_diff_asymmetry_witness :
    git_show repoDemo "c0sha" =
      .ok (commitText rootCommit ++ renderDiffs (diffPatch rootCommit.tree NULL_TREE)) ∧
    ∃ pre post,
      commitText rootCommit ++ renderDiffs (diffPatch rootCommit.tree NULL_TREE) =
        pre ++ "hello world\n" ++ post :=
  ⟨((git_show_diff_asymmetry repoDemo "c0sha" rootCommit rfl).2 rfl).1,
   ((git_show_diff_asymmetry repoDemo "c0sha" rootCommit rfl).2 rfl).2
     "a.txt" "hello world\n" rfl⟩

/-- Modelled from the spec: whether a remote URL uses a network
(non-local) transport — http(s), ssh, the git protocol or scp-like ssh
syntax — as opposed to a local path or `file://` URL. -/
def isNetworkTransport (url : String) : Bool :=
  pyStartsWith url "https://" || pyStartsWith url "http://" || pyStartsWith url "ssh://" ||
    pyStartsWith url "git://" || pyStartsWith url "git@"

/-- Setting one configuration key leaves every other key's lookup
unchanged. -/
theorem alookup_filter_append {l : List (String × String)} {key v k : String}
    (hk : k ≠ key) :
    alookup ((l.filter (fun p => p.1 != key)) ++ [(key, v)]) k = alookup l k := by
  induction l with
  | nil => simp [alookup, beq_false_of_ne (Ne.symm hk)]
  | cons p rest ih =>
    obtain ⟨k1, v1⟩ := p
    by_cases h1 : k1 = key
    · subst h1
      simp only [List.filter_cons, bne_self_eq_false, Bool.false_eq_true, if_false]
      simp [alookup, beq_false_of_ne (fun h => hk h.symm), ih]
    · have h1' : (k1 != key) = true := bne_iff_ne.mpr h1
      simp only [List.filter_cons, h1', if_true, List.cons_append]
      by_cases h2 : k1 = k
      · subst h2; simp [alookup]
      · simp [alookup, beq_false_of_ne h2, ih]

/-- C8 counterexample: an ssh remote URL is a network (non-local)
transport and both process-wide credentials are present, yet no credential
environment is injected — the code's condition is specifically
`url.startswith('https://')`, so the push runs without credentials. -/
theorem cred_injection_ssh_counterexample :
    isNetworkTransport "ssh://git@example.com/r.git" = true ∧
    truthyOpt (some "user") = true ∧
    truthyOpt (some "tok") = true ∧
    credEnv "ssh://git@example.com/r.git" ⟨some "user", some "tok"⟩ = none ∧
    git_push tcDemo ⟨some "user", some "tok"⟩ repoDemo "upstream" none =
      (.ok "Pushed changes to upstream",
       { repoDemo with config := [("probe", "no-creds")] }) :=
  ⟨rfl, rfl, rfl, rfl, rfl⟩

/-- C8 (amended): for push, pull and fetch, the credential environment is
injected into the toolchain call if and only if the remote URL starts with
`https://` and both process-wide credentials are truthy; the injected pair
exists only as the per-call argument — the repository state handed to the
toolchain is the caller's state unchanged for push and fetch, and for pull
differs only in the `pull.rebase` strategy key, so credentials are never
persisted to repository configuration. -/
theorem cred_injection_amended (url : String) (cred : CredConfig) :
    ((credEnv url cred).isSome =
      (pyStartsWith url "https://" && truthyOpt cred.username && truthyOpt cred.token)) ∧
    (∀ tc repo remote branch, alookup repo.remotes remote = some url →
       git_push tc cred repo remote branch =
         (match tc.push repo remote (credEnv url cred) branch with
          | .ok _ repo2 =>
            (match branch with
             | some b => (.ok ("Pushed changes to " ++ remote ++ "/" ++ b), repo2)
             | none => (.ok ("Pushed changes to " ++ remote), repo2))
          | .fail m repo2 => (.error (.gitCommandError m), repo2))) ∧
    (∀ tc repo remote, alookup repo.remotes remote = some url →
       git_fetch tc cred repo remote =
         (match tc.fetch repo remote (credEnv url cred) with
          | .ok _ repo2 => (.ok ("Fetched changes from " ++ remote), repo2)
          | .fail m repo2 => (.error (.gitCommandError m), repo2))) ∧
    (∀ repo (rebase : Bool) k, k ≠ "pull.rebase" →
       alookup (setConfig repo "pull.rebase"
         (if rebase then "true" else "false")).config k = alookup repo.config k) := by
  refine ⟨?_, fun tc repo remote branch hre => ?_, fun tc repo remote hre => ?_,
          fun repo rebase k hk => ?_⟩
  · by_cases h : (pyStartsWith url "https://" && truthyOpt cred.username && truthyOpt cred.token) = true
    · simp [credEnv, h]
    · simp [credEnv, h]
  · simp [git_push, hre]
  · simp [git_fetch, hre]
  · exact alookup_filter_append hk

/-- Witness for the amended C8: with an https remote URL and both
credentials present, the credential environment is injected into the
toolchain push (the probing toolchain records it). -/
theorem cred_injection_amended_witness :
    git_push tcDemo ⟨some "user", some "tok"⟩ repoDemo "origin" none =
      (.ok "Pushed changes to origin",
       { repoDemo with config := [("probe", "with-creds")] }) :=
  (cred_injection_amended "https://example.com/r.git" ⟨some "user", some "tok"⟩).2.1
    tcDemo repoDemo "origin" none rfl

/-- C9 counterexample: for the commit operation the dispatcher's returned
text is exactly the operation function's return value; no nonempty
operation-specific label prefixes it, contradicting the claim that every
operation's result text carries such a label. -/
theorem dispatch_label_counterexample :
    call_tool wDemo "git_commit" [("repo_path", .s "/repo"), ("message", .s "msg")] =
      .ok ([TextContent.mk "text" "Changes committed successfully with hash abc123"],
           repoDemo) ∧
    (git_commit tcDemo repoDemo "msg").1 =
      "Changes committed successfully with hash abc123" ∧
    ¬ ∃ lbl : String, lbl ≠ "" ∧
        "Changes committed successfully with hash abc123" =
          lbl ++ "Changes committed successfully with hash abc123" := by
  refine ⟨rfl, rfl, ?_⟩
  rintro ⟨lbl, hne, heq⟩
  have hlen := congrArg String.length heq
  rw [String.length_append] at hlen
  have hl0 : lbl.length = 0 := by omega
  apply hne
  cases lbl with
  | mk d =>
    cases d with
    | nil => rfl
    | cons c cs => simp [String.length] at hl0

/-- The optional segment of an argument mapping carrying one string-valued
key when present. -/
def optArgS (key : String) : Option String → List (String × ArgValue)
  | some v => [(key, .s v)]
  | none => []

/-- C9 (amended): the dispatcher adds a verbatim label prefix for exactly
the status ("Repository status:\n"), unstaged-diff ("Unstaged changes:\n"),
staged-diff ("Staged changes:\n"), targeted-diff ("Diff with [target]:\n"),
log ("Commit history:\n"), list-branches ("Branches:\n") and list-remotes
("Remotes:\n") operations; each of the sixteen remaining operations
(commit, add, reset, create-branch, checkout, show, push, pull, fetch,
merge, stash, stash-pop, get-current-branch, delete-branch, add-remote and
remove-remote) returns the operation function's text unmodified. -/
theorem dispatch_label_amended (w : World) (path : String) (repo : RepoCore)
    (hrepo : alookup w.repos path = some repo) :
    (call_tool w "git_status" [("repo_path", .s path)] =
      .ok ([⟨"text", "Repository status:\n" ++ git_status w.tc repo⟩], repo)) ∧
    (call_tool w "git_diff_unstaged" [("repo_path", .s path)] =
      .ok ([⟨"text", "Unstaged changes:\n" ++ git_diff_unstaged w.tc repo⟩], repo)) ∧
    (call_tool w "git_diff_staged" [("repo_path", .s path)] =
      .ok ([⟨"text", "Staged changes:\n" ++ git_diff_staged w.tc repo⟩], repo)) ∧
    (∀ target, call_tool w "git_diff" [("repo_path", .s path), ("target", .s target)] =
      .ok ([⟨"text", "Diff with " ++ target ++ ":\n" ++ git_diff w.tc repo target⟩], repo)) ∧
    (call_tool w "git_log" [("repo_path", .s path)] =
      .ok ([⟨"text", "Commit history:\n" ++ joinSep "\n" (git_log repo 10)⟩], repo)) ∧
    (call_tool w "git_list_branches" [("repo_path", .s path)] =
      .ok ([⟨"text", "Branches:\n" ++ joinSep "\n" (git_list_branches repo)⟩], repo)) ∧
    (call_tool w "git_list_remotes" [("repo_path", .s path)] =
      .ok ([⟨"text", "Remotes:\n" ++ joinSep "\n" (git_list_remotes repo)⟩], repo)) ∧
    (∀ message, call_tool w "git_commit"
        [("repo_path", .s path), ("message", .s message)] =
      .ok ([⟨"text", (git_commit w.tc repo message).1⟩], (git_commit w.tc repo message).2)) ∧
    (∀ files, call_tool w "git_add"
        [("repo_path", .s path), ("files", .ls files)] =
      .ok ([⟨"text", (git_add w.tc repo files).1⟩], (git_add w.tc repo files).2)) ∧
    (call_tool w "git_reset" [("repo_path", .s path)] =
      .ok ([⟨"text", (git_reset w.tc repo).1⟩], (git_reset w.tc repo).2)) ∧
    (∀ bn bb out repo2, git_create_branch repo bn bb = (.ok out, repo2) →
       call_tool w "git_create_branch"
           ([("repo_path", .s path), ("branch_name", .s bn)] ++ optArgS "base_branch" bb) =
         .ok ([⟨"text", out⟩], repo2)) ∧
    (∀ bn out repo2, git_checkout w.tc repo bn = (.ok out, repo2) →
       call_tool w "git_checkout" [("repo_path", .s path), ("branch_name", .s bn)] =
         .ok ([⟨"text", out⟩], repo2)) ∧
    (∀ rev out, git_show repo rev = .ok out →
       call_tool w "git_show" [("repo_path", .s path), ("revision", .s rev)] =
         .ok ([⟨"text", out⟩], repo)) ∧
    (∀ remote branch out repo2, git_push w.tc w.cred repo remote branch = (.ok out, repo2) →
       call_tool w "git_push"
           ([("repo_path", .s path), ("remote", .s remote)] ++ optArgS "branch" branch) =
         .ok ([⟨"text", out⟩], repo2)) ∧
    (∀ remote branch rebase out repo2,
       git_pull w.tc w.cred repo remote branch rebase = (.ok out, repo2) →
       call_tool w "git_pull"
           ([("repo_path", .s path), ("remote", .s remote)] ++ optArgS "branch" branch ++
            [("rebase", .b rebase)]) =
         .ok ([⟨"text", out⟩], repo2)) ∧
    (∀ remote out repo2, git_fetch w.tc w.cred repo remote = (.ok out, repo2) →
       call_tool w "git_fetch" [("repo_path", .s path), ("remote", .s remote)] =
         .ok ([⟨"text", out⟩], repo2)) ∧
    (∀ branch out repo2, git_merge w.tc repo branch = (.ok out, repo2) →
       call_tool w "git_merge" [("repo_path", .s path), ("branch", .s branch)] =
         .ok ([⟨"text", out⟩], repo2)) ∧
    (∀ message out repo2, git_stash w.tc repo message = (.ok out, repo2) →
       call_tool w "git_stash" ([("repo_path", .s path)] ++ optArgS "message" message) =
         .ok ([⟨"text", out⟩], repo2)) ∧
    (∀ (index : Int) out repo2, git_stash_pop w.tc repo index = (.ok out, repo2) →
       call_tool w "git_stash_pop" [("repo_path", .s path), ("index", .i index)] =
         .ok ([⟨"text", out⟩], repo2)) ∧
    (call_tool w "git_get_current_branch" [("repo_path", .s path)] =
      .ok ([⟨"text", git_get_current_branch repo⟩], repo)) ∧
    (∀ bn (force : Bool) out repo2, git_delete_branch w.tc repo bn force = (.ok out, repo2) →
       call_tool w "git_delete_branch"
           [("repo_path", .s path), ("branch_name", .s bn), ("force", .b force)] =
         .ok ([⟨"text", out⟩], repo2)) ∧
    (∀ name url out repo2, git_add_remote repo name url = (.ok out, repo2) →
       call_tool w "git_add_remote"
           [("repo_path", .s path), ("name", .s name), ("url", .s url)] =
         .ok ([⟨"text", out⟩], repo2)) ∧
    (∀ name out repo2, git_remove_remote repo name = (.ok out, repo2) →
       call_tool w "git_remove_remote" [("repo_path", .s path), ("name", .s name)] =
         .ok ([⟨"text", out⟩], repo2)) := by
  refine ⟨?_, ?_, ?_, fun target => ?_, ?_, ?_, ?_, fun message => ?_, fun files => ?_, ?_,
    fun bn bb out repo2 hop => ?_, fun bn out repo2 hop => ?_, fun rev out hop => ?_,
    fun remote branch out repo2 hop => ?_, fun remote branch rebase out repo2 hop => ?_,
    fun remote out repo2 hop => ?_, fun branch out repo2 hop => ?_,
    fun message out repo2 hop => ?_, fun index out repo2 hop => ?_, ?_,
    fun bn force out repo2 hop => ?_, fun name url out repo2 hop => ?_,
    fun name out repo2 hop => ?_⟩
  case _ => simp [call_tool, parseTool, dispatchOp, alookup, hrepo]
  case _ => simp [call_tool, parseTool, dispatchOp, alookup, hrepo]
  case _ => simp [call_tool, parseTool, dispatchOp, alookup, hrepo]
  case _ => simp [call_tool, parseTool, dispatchOp, alookup, hrepo, reqString]
  case _ => simp [call_tool, parseTool, dispatchOp, alookup, hrepo, optIntD]
  case _ => simp [call_tool, parseTool, dispatchOp, alookup, hrepo]
  case _ => simp [call_tool, parseTool, dispatchOp, alookup, hrepo]
  case _ => simp [call_tool, parseTool, dispatchOp, alookup, hrepo, reqString]
  case _ => simp [call_tool, parseTool, dispatchOp, alookup, hrepo, reqStrList]
  case _ => simp [call_tool, parseTool, dispatchOp, alookup, hrepo]
  case _ =>
    cases bb <;>
      simp [call_tool, parseTool, dispatchOp, alookup, hrepo, reqString, optString,
            optArgS, liftPair, hop]
  case _ =>
    simp [call_tool, parseTool, dispatchOp, alookup, hrepo, reqString, liftPair, hop]
  case _ =>
    simp [call_tool, parseTool, dispatchOp, alookup, hrepo, reqString, hop]
  case _ =>
    cases branch <;>
      simp [call_tool, parseTool, dispatchOp, alookup, hrepo, optString, optStringD,
            optArgS, liftPair, hop]
  case _ =>
    cases branch <;>
      simp [call_tool, parseTool, dispatchOp, alookup, hrepo, optString, optStringD,
            optBoolD, optArgS, liftPair, hop]
  case _ =>
    simp [call_tool, parseTool, dispatchOp, alookup, hrepo, optStringD, liftPair, hop]
  case _ =>
    simp [call_tool, parseTool, dispatchOp, alookup, hrepo, reqString, liftPair, hop]
  case _ =>
    cases message <;>
      simp [call_tool, parseTool, dispatchOp, alookup, hrepo, optString, optArgS,
            liftPair, hop]
  case _ =>
    simp [call_tool, parseTool, dispatchOp, alookup, hrepo, optIntD, liftPair, hop]
  case _ => simp [call_tool, parseTool, dispatchOp, alookup, hrepo]
  case _ =>
    simp [call_tool, parseTool, dispatchOp, alookup, hrepo, reqString, optBoolD,
          liftPair, hop]
  case _ =>
    simp [call_tool, parseTool, dispatchOp, alookup, hrepo, reqString, liftPair, hop]
  case _ =>
    simp [call_tool, parseTool, dispatchOp, alookup, hrepo, reqString, liftPair, hop]

/-- Witness for the amended C9: a concrete status invocation carries the
verbatim label. -/
theorem dispatch_label_amended_witness :
    call_tool wDemo "git_status" [("repo_path", .s "/repo")] =
      .ok ([⟨"text", "Repository status:\nclean"⟩], repoDemo) :=
  (dispatch_label_amended wDemo "/repo" repoDemo rfl).1

/-- C10: every successful invocation of any dispatched tool returns exactly
one text segment, for all argument mappings — multi-entry results are
joined into that single segment. -/
theorem call_tool_singleton_result (w : World) (name : String)
    (args : List (String × ArgValue)) (res : List TextContent) (repo2 : RepoCore)
    (h : call_tool w name args = .ok (res, repo2)) : res.length = 1 := by
  unfold call_tool at h
  repeat' split at h
  all_goals try exact Except.noConfusion h
  all_goals injection h with h
  all_goals obtain ⟨h1, h2⟩ := Prod.mk.injEq .. ▸ h
  all_goals simp [← h1]

/-- Witness for C10 at a concrete successful invocation. -/
theorem call_tool_singleton_result_witness :
    call_tool wDemo "git_status" [("repo_path", .s "/repo")] =
      .ok ([TextContent.mk "text" "Repository status:\nclean"], repoDemo) ∧
    ([TextContent.mk "text" "Repository status:\nclean"] : List TextContent).length = 1 :=
  ⟨rfl, call_tool_singleton_result wDemo "git_status" [("repo_path", .s "/repo")]
    [TextContent.mk "text" "Repository status:\nclean"] repoDemo rfl⟩
